import Mathlib

/-!
Shallow embedding of the water/calorie tracking bot (`src/bot.py`).

Python numbers are modelled as exact rationals (`ℚ`) and integers (`ℤ`);
Python's `int(x)` truncation toward zero on a float is `pyIntQ`; Python's
integer floor division `//` is `Int.fdiv`.  Message texts arriving from the
user are modelled as `String`s, with the standard library converters
`float(...)` / `int(...)` modelled by `pyFloatStr` / `pyIntStr` on plain
decimal numerals (optional sign, digits, optional decimal point) — the only
shapes the handlers in this development exercise.  External collaborators
(weather, burn-rate and nutrition lookups) are passed in as `Option`-valued
arguments: `some v` models a successful HTTP response carrying `v`, `none`
models any failure / empty-result path.
-/

/-- Truncation toward zero of a rational, modelling Python's `int()` applied
to a float value: `int(3.9) = 3`, `int(-3.9) = -3`. -/
def pyIntQ (q : ℚ) : ℤ := if q < 0 then ⌈q⌉ else ⌊q⌋

/-- Decimal value of a digit list (most significant first); defined on any
characters but only used on strings of ASCII digits. -/
def natOfDigits (cs : List Char) : ℕ :=
  cs.foldl (fun acc c => acc * 10 + (c.toNat - 48)) 0

/-- Python's `int(text)` on plain decimal numerals: optional sign followed by
one or more digits; `none` models the `ValueError` raised on anything else. -/
def pyIntStr (s : String) : Option ℤ :=
  let core : List Char → Option ℤ := fun cs =>
    if cs ≠ [] ∧ cs.all (fun c => c.isDigit) then some ((natOfDigits cs : ℕ) : ℤ)
    else none
  match s.toList with
  | '-' :: cs => (core cs).map (fun n => -n)
  | '+' :: cs => core cs
  | cs => core cs

/-- Unsigned decimal body for `pyFloatStr`: digits, optionally followed by a
decimal point and further digits (at least one digit overall). -/
def pyFloatBody (cs : List Char) : Option ℚ :=
  let intPart := cs.takeWhile (fun c => c.isDigit)
  let rest := cs.dropWhile (fun c => c.isDigit)
  match rest with
  | [] => if intPart = [] then none else some ((natOfDigits intPart : ℕ) : ℚ)
  | '.' :: frac =>
      if frac.all (fun c => c.isDigit) ∧ ¬(intPart = [] ∧ frac = []) then
        some ((natOfDigits intPart : ℚ) + (natOfDigits frac : ℚ) / (10 : ℚ) ^ frac.length)
      else none
  | _ :: _ => none

/-- Python's `float(text)` on plain decimal numerals (optional sign, digits,
optional fractional part); `none` models the `ValueError` on anything else. -/
def pyFloatStr (s : String) : Option ℚ :=
  match s.toList with
  | '-' :: cs => (pyFloatBody cs).map (fun q => -q)
  | '+' :: cs => pyFloatBody cs
  | cs => pyFloatBody cs

/-- Embedding of `calculate_water_goal` (bot.py lines 71-79).  The Python truthiness test
`temperature and temperature > 25` is `t ≠ 0 ∧ 25 < t` on a present value and
false on `None`.  Note the result is the raw sum — no `int()` truncation. -/
def calculate_water_goal (weight : ℚ) (activity_minutes : ℤ) (temperature : Option ℚ) : ℚ :=
  let base : ℚ := weight * 30
  let activity_bonus : ℚ := ((Int.fdiv activity_minutes 30 : ℤ) : ℚ) * 500
  let temp_bonus : ℚ :=
    match temperature with
    | none => 0
    | some t => if t ≠ 0 ∧ 25 < t then 750 else if t ≠ 0 ∧ 20 < t then 500 else 0
  base + activity_bonus + temp_bonus

/-- Embedding of `calculate_calorie_goal` (bot.py lines 81-88).  The stored gender is the
raw message text (`"М"` / `"Ж"`), kept as `Option String` because the field
starts as `None`; Python's `gender == 'М'` is false on `None`, so any value
other than `some "М"` takes the `-161` branch, exactly as in the source. -/
def calculate_calorie_goal (weight height : ℚ) (age : ℤ) (gender : Option String)
    (activity_minutes : ℤ) : ℤ :=
  let bmr : ℚ :=
    if gender = some "М" then 10 * weight + 25 / 4 * height - 5 * (age : ℚ) + 5
    else 10 * weight + 25 / 4 * height - 5 * (age : ℚ) - 161
  let activity_bonus : ℚ := ((activity_minutes : ℚ) / 30) * 250
  pyIntQ (bmr + activity_bonus)

/-- Embedding of `get_calories_burned` (bot.py lines 90-106).  `lookup = some rate` models
a 200 response with non-empty data carrying `calories_per_hour = rate`;
`none` models every other path (non-200, empty data, raised exception), all
of which return the same linear fallback in the source. -/
def get_calories_burned (lookup : Option ℚ) (duration_minutes : ℤ) (weight : ℚ) : ℤ :=
  match lookup with
  | some calories_per_hour =>
      let calories_per_minute : ℚ := calories_per_hour / 60
      let adjusted_calories : ℚ := calories_per_minute * (weight / 70)
      pyIntQ (adjusted_calories * (duration_minutes : ℚ))
  | none => pyIntQ ((duration_minutes : ℚ) * 5 * (weight / 70))

/-- Pending food lookup, the value `get_food_calories` stores into
`temp_food_data` (bot.py lines 108-127): display name, kcal per reference
serving, reference serving size (always 100 in the source). -/
structure FoodData where
  name : String
  calories : ℚ
  serving_size : ℚ
deriving DecidableEq

/-- Per-user entry of the global `users` dictionary (bot.py lines 129-146).
History entries are (timestamp, amount) pairs with an abstract `ℕ` timestamp
standing for `datetime.now()`. -/
structure UserState where
  weight : Option ℚ
  height : Option ℚ
  age : Option ℤ
  gender : Option String
  activity : Option ℤ
  city : Option String
  water_goal : Option ℚ
  calorie_goal : Option ℤ
  logged_water : ℤ
  logged_calories : ℚ
  burned_calories : ℚ
  water_history : List (ℕ × ℤ)
  calorie_history : List (ℕ × ℚ)
  temp_food_data : Option FoodData
deriving DecidableEq

/-- Embedding of `init_user_data` (bot.py lines 129-146): the blank profile created on
first touch. -/
def init_user_data : UserState :=
  { weight := none, height := none, age := none, gender := none,
    activity := none, city := none, water_goal := none, calorie_goal := none,
    logged_water := 0, logged_calories := 0, burned_calories := 0,
    water_history := [], calorie_history := [], temp_food_data := none }

/-- Conversation states of the python-telegram-bot `ConversationHandler`:
the `range(9)` codes of bot.py line 25 plus the sentinel `END`. -/
inductive ConvState where
  | WEIGHT | HEIGHT | AGE | GENDER | ACTIVITY | CITY
  | FOOD_AMOUNT | WORKOUT_TYPE | WORKOUT_DURATION
  | END
deriving DecidableEq

/-- Result of one profile-wizard text handler: the updated user entry, the
conversation state returned to the framework, and the reply sent. -/
structure HandlerResult where
  st : UserState
  next : ConvState
  reply : String
deriving DecidableEq

def invalid_number_reply : String := "Пожалуйста, введите корректное число:"

def height_prompt : String := "Введите ваш рост (в см):"

def age_prompt : String := "Введите ваш возраст:"

def gender_prompt : String := "Укажите ваш пол:"

def gender_reprompt : String := "Пожалуйста, выберите М или Ж:"

def activity_prompt : String := "Сколько минут активности у вас в день?"

def city_prompt : String := "В каком городе вы находитесь?"

/-- Embedding of `weight_handler` (bot.py lines 183-192): any parseable float is stored
(no positivity check); a parse failure re-prompts and stays in WEIGHT. -/
def weight_handler (st : UserState) (text : String) : HandlerResult :=
  match pyFloatStr text with
  | some w => ⟨{ st with weight := some w }, ConvState.HEIGHT, height_prompt⟩
  | none => ⟨st, ConvState.WEIGHT, invalid_number_reply⟩

/-- Embedding of `height_handler` (bot.py lines 194-203). -/
def height_handler (st : UserState) (text : String) : HandlerResult :=
  match pyFloatStr text with
  | some h => ⟨{ st with height := some h }, ConvState.AGE, age_prompt⟩
  | none => ⟨st, ConvState.HEIGHT, invalid_number_reply⟩

/-- Embedding of `age_handler` (bot.py lines 205-217): any parseable integer is stored. -/
def age_handler (st : UserState) (text : String) : HandlerResult :=
  match pyIntStr text with
  | some a => ⟨{ st with age := some a }, ConvState.GENDER, gender_prompt⟩
  | none => ⟨st, ConvState.AGE, invalid_number_reply⟩

/-- Embedding of `gender_handler` (bot.py lines 219-232): only membership in {М, Ж} is
checked; anything else re-prompts and stays in GENDER. -/
def gender_handler (st : UserState) (text : String) : HandlerResult :=
  if ¬(text = "М" ∨ text = "Ж") then ⟨st, ConvState.GENDER, gender_reprompt⟩
  else ⟨{ st with gender := some text }, ConvState.ACTIVITY, activity_prompt⟩

/-- Embedding of `activity_handler` (bot.py lines 234-243): any parseable integer is
stored (negative activity included). -/
def activity_handler (st : UserState) (text : String) : HandlerResult :=
  match pyIntStr text with
  | some a => ⟨{ st with activity := some a }, ConvState.CITY, city_prompt⟩
  | none => ⟨st, ConvState.ACTIVITY, invalid_number_reply⟩

/-- Embedding of `city_handler` (bot.py lines 245-286): stores the city, recomputes both
goals, zeroes the three counters, and ends the conversation.  Histories and
`temp_food_data` are untouched.  If one of weight/height/age/activity is
still `None` the arithmetic raises `TypeError` after the city assignment:
modelled by returning `none` for the conversation state (gender `None` does
not raise — the equality test simply fails, see `calculate_calorie_goal`). -/
def city_handler (st : UserState) (city : String) (temperature : Option ℚ) :
    UserState × Option ConvState :=
  let st0 := { st with city := some city }
  match st.weight, st.height, st.age, st.activity with
  | some w, some h, some a, some act =>
      ({ st0 with
          water_goal := some (calculate_water_goal w act temperature),
          calorie_goal := some (calculate_calorie_goal w h a st.gender act),
          logged_water := 0, logged_calories := 0, burned_calories := 0 },
       some ConvState.END)
  | _, _, _, _ => (st0, none)

/-- Outcome of `/log_water`.  `invalidAmount` is the usage-message branch of
bot.py lines 330-334, reached when the argument is missing, unparsable, or
`≤ 0` (the source raises and catches `ValueError` for all three). -/
inductive WaterOutcome where
  | profileIncomplete
  | invalidAmount
  | logged (amount total : ℤ) (remaining : ℚ) (goalMet : Bool)
deriving DecidableEq

/-- Embedding of `log_water` (bot.py lines 295-334).  `args` are the command arguments;
`now` stands for `datetime.now()`.  Validation precedes every write, so the
entry is unchanged on each failure path. -/
def log_water (st : UserState) (args : List String) (now : ℕ) :
    UserState × WaterOutcome :=
  match st.water_goal with
  | none => (st, WaterOutcome.profileIncomplete)
  | some goal =>
    if goal = 0 then (st, WaterOutcome.profileIncomplete)
    else
      match (match args with | [] => some (0 : ℤ) | a :: _ => pyIntStr a) with
      | none => (st, WaterOutcome.invalidAmount)
      | some amount =>
        if amount ≤ 0 then (st, WaterOutcome.invalidAmount)
        else
          let total := st.logged_water + amount
          let remaining : ℚ := goal - (total : ℚ)
          ({ st with logged_water := total,
                     water_history := st.water_history ++ [(now, total)] },
           WaterOutcome.logged amount total remaining (decide (remaining ≤ 0)))

/-- Outcome of `/log_food` entry (bot.py lines 336-373). -/
inductive FoodStartOutcome where
  | profileIncomplete
  | usage
  | notFound
  | awaitAmount (fd : FoodData)
deriving DecidableEq

/-- Embedding of `log_food_start` (bot.py lines 336-373).  The nutrition collaborator's
answer is passed in as `lookupResult` (`none` models `get_food_calories`
returning `None`).  On success the lookup is stored as pending and the
conversation moves to FOOD_AMOUNT. -/
def log_food_start (st : UserState) (args : List String)
    (lookupResult : Option FoodData) : UserState × ConvState × FoodStartOutcome :=
  match st.calorie_goal with
  | none => (st, ConvState.END, FoodStartOutcome.profileIncomplete)
  | some cg =>
    if cg = 0 then (st, ConvState.END, FoodStartOutcome.profileIncomplete)
    else if args = [] then (st, ConvState.END, FoodStartOutcome.usage)
    else
      match lookupResult with
      | none => (st, ConvState.END, FoodStartOutcome.notFound)
      | some fd =>
          ({ st with temp_food_data := some fd },
           ConvState.FOOD_AMOUNT, FoodStartOutcome.awaitAmount fd)

/-- Outcome of the FOOD_AMOUNT reply handler.  `noPendingLookup` is the
uncaught `TypeError` of bot.py line 384 when `temp_food_data` is `None`
(`None['calories']`): the handler dies before any write, so the entry is
unchanged and no reply is sent.  `crashNoGoal` is the uncaught `TypeError`
of line 397 when `calorie_goal` is `None`, which happens only after the
calorie write.  `reprompt` is the caught `ValueError` (bad or non-positive
number): re-ask, stay in FOOD_AMOUNT. -/
inductive FoodOutcome where
  | reprompt
  | noPendingLookup
  | crashNoGoal
  | logged (calories total remaining : ℚ)
deriving DecidableEq

/-- Embedding of `food_amount_handler` (bot.py lines 375-405), the completion step of the
two-step food flow. -/
def food_amount_handler (st : UserState) (text : String) (now : ℕ) :
    UserState × ConvState × FoodOutcome :=
  match pyFloatStr text with
  | none => (st, ConvState.FOOD_AMOUNT, FoodOutcome.reprompt)
  | some amount =>
    if amount ≤ 0 then (st, ConvState.FOOD_AMOUNT, FoodOutcome.reprompt)
    else
      match st.temp_food_data with
      | none => (st, ConvState.FOOD_AMOUNT, FoodOutcome.noPendingLookup)
      | some food_data =>
        let calories : ℚ := food_data.calories / food_data.serving_size * amount
        let total := st.logged_calories + calories
        let st1 := { st with logged_calories := total,
                             calorie_history := st.calorie_history ++ [(now, total)] }
        match st.calorie_goal with
        | none => (st1, ConvState.FOOD_AMOUNT, FoodOutcome.crashNoGoal)
        | some cg =>
            ({ st1 with temp_food_data := none }, ConvState.END,
             FoodOutcome.logged calories total ((cg : ℚ) - total + st.burned_calories))

/-- Outcome of `/log_workout`.  `usage` covers too few arguments, an
unparsable last argument, and a non-positive duration (bot.py lines 417-422
and 457-462); `crashNoWeight` is the `TypeError` raised through
`get_calories_burned` when `weight` is still `None`. -/
inductive WorkoutOutcome where
  | profileIncomplete
  | usage
  | crashNoWeight
  | done (workout_type : String) (burned extraWater : ℤ) (remaining : ℚ)
deriving DecidableEq

/-- Embedding of `log_workout_start` (bot.py lines 407-462).  The burn-rate collaborator
result is `lookup` (see `get_calories_burned`). -/
def log_workout_start (st : UserState) (args : List String) (lookup : Option ℚ)
    (now : ℕ) : UserState × WorkoutOutcome :=
  match st.calorie_goal with
  | none => (st, WorkoutOutcome.profileIncomplete)
  | some cg =>
    if cg = 0 then (st, WorkoutOutcome.profileIncomplete)
    else if args.length < 2 then (st, WorkoutOutcome.usage)
    else
      match args.getLast? with
      | none => (st, WorkoutOutcome.usage)
      | some durText =>
        match pyIntStr durText with
        | none => (st, WorkoutOutcome.usage)
        | some duration =>
          if duration ≤ 0 then (st, WorkoutOutcome.usage)
          else
            let workout_type := String.intercalate " " args.dropLast
            match st.weight with
            | none => (st, WorkoutOutcome.crashNoWeight)
            | some weight =>
              let calories_burned := get_calories_burned lookup duration weight
              let newBurned := st.burned_calories + (calories_burned : ℚ)
              ({ st with burned_calories := newBurned,
                         calorie_history := st.calorie_history ++ [(now, -newBurned)],
                         water_history :=
                           st.water_history ++ [(now, Int.fdiv duration 30 * (-200))] },
               WorkoutOutcome.done workout_type calories_burned
                 (Int.fdiv duration 30 * 200)
                 ((cg : ℚ) - st.logged_calories + newBurned))

/-- Values shown by `/check_progress` (bot.py lines 481-491).
`water_remaining_shown` carries the `max(0, ...)` applied at display time. -/
structure ProgressView where
  logged_water : ℤ
  water_goal : ℚ
  water_remaining_shown : ℚ
  logged_calories : ℚ
  burned_calories : ℚ
  calorie_balance : ℚ
  calorie_remaining : ℚ
deriving DecidableEq

/-- Outcome of `/check_progress`.  `crashNoGoal` is the `TypeError` when
`water_goal` is truthy but `calorie_goal` is `None` (unreachable through the
wizard, which always sets both). -/
inductive ProgressOutcome where
  | profileIncomplete
  | crashNoGoal
  | shown (v : ProgressView)
deriving DecidableEq

/-- Embedding of `check_progress` (bot.py lines 464-491). -/
def check_progress (st : UserState) : ProgressOutcome :=
  match st.water_goal with
  | none => ProgressOutcome.profileIncomplete
  | some wg =>
    if wg = 0 then ProgressOutcome.profileIncomplete
    else
      match st.calorie_goal with
      | none => ProgressOutcome.crashNoGoal
      | some cg =>
        let water_remaining : ℚ := wg - (st.logged_water : ℚ)
        let calorie_balance : ℚ := st.logged_calories - st.burned_calories
        ProgressOutcome.shown
          { logged_water := st.logged_water, water_goal := wg,
            water_remaining_shown := max 0 water_remaining,
            logged_calories := st.logged_calories,
            burned_calories := st.burned_calories,
            calorie_balance := calorie_balance,
            calorie_remaining := (cg : ℚ) - calorie_balance }

/-- Outcome of `/show_graphs` (bot.py lines 493-606): the same truthiness
guard on `water_goal`, a no-data message when both histories are empty, else
a chart built from the two history series. -/
inductive GraphsOutcome where
  | profileIncomplete
  | noData
  | chart (waterSeries : List (ℕ × ℤ)) (calorieSeries : List (ℕ × ℚ))
deriving DecidableEq

/-- Embedding of `show_graphs` (bot.py lines 493-606), reduced to its guard structure and
the history series handed to the renderer; the drawing itself is the
external chart collaborator. -/
def show_graphs (st : UserState) : GraphsOutcome :=
  match st.water_goal with
  | none => GraphsOutcome.profileIncomplete
  | some wg =>
    if wg = 0 then GraphsOutcome.profileIncomplete
    else if st.water_history = [] ∧ st.calorie_history = [] then GraphsOutcome.noData
    else GraphsOutcome.chart st.water_history st.calorie_history

/-- One logging command hitting a user's entry, with the collaborator
answers it consumes; used to talk about arbitrary interleavings. -/
inductive Event where
  | water (args : List String) (now : ℕ)
  | beginFood (args : List String) (lookupResult : Option FoodData)
  | foodAmount (text : String) (now : ℕ)
  | workout (args : List String) (lookup : Option ℚ) (now : ℕ)

/-- State reached after one event (the conversation-state and reply parts of
each handler are dropped). -/
def applyEvent (st : UserState) : Event → UserState
  | Event.water args now => (log_water st args now).1
  | Event.beginFood args r => (log_food_start st args r).1
  | Event.foodAmount text now => (food_amount_handler st text now).1
  | Event.workout args lookup now => (log_workout_start st args lookup now).1

/-- State reached after a sequence of logging events. -/
def applyEvents (st : UserState) (evs : List Event) : UserState :=
  evs.foldl applyEvent st

/-- Temperature bonus exactly as the claim words it: +750 above 25°C, +500
above 20°C, else 0, and 0 when the temperature is missing. -/
def specTempBonus : Option ℚ → ℚ
  | none => 0
  | some t => if 25 < t then 750 else if 20 < t then 500 else 0

/-- C5 (amended): for weight w > 0 and activity a ≥ 0,
`calculate_water_goal` returns exactly w·30 + (a // 30)·500 plus the claim's
temperature bonus, as an untruncated rational — there is no `int()` on the
result, so a fractional base is passed through, not truncated. -/
theorem C5_water_goal_formula (w : ℚ) (a : ℤ) (t : Option ℚ)
    (hw : 0 < w) (ha : 0 ≤ a) :
    calculate_water_goal w a t =
      w * 30 + ((Int.fdiv a 30 : ℤ) : ℚ) * 500 + specTempBonus t := by
  cases t with
  | none => simp [calculate_water_goal, specTempBonus]
  | some v =>
    by_cases h25 : 25 < v
    · have hv : v ≠ 0 := by intro h; rw [h] at h25; norm_num at h25
      simp [calculate_water_goal, specTempBonus, h25, hv]
    · by_cases h20 : 20 < v
      · have hv : v ≠ 0 := by intro h; rw [h] at h20; norm_num at h20
        simp [calculate_water_goal, specTempBonus, h25, h20, hv]
      · simp [calculate_water_goal, specTempBonus, h25, h20]

/-- Witness for C5 at the spec's own example: weight 70, activity 45,
temperature 26 — the formula gives 2100 + 500 + 750 = 3350. -/
theorem C5_water_goal_formula_witness :
    (0 : ℚ) < 70 ∧ (0 : ℤ) ≤ 45 ∧
    calculate_water_goal 70 45 (some 26) =
      70 * 30 + ((Int.fdiv 45 30 : ℤ) : ℚ) * 500 + specTempBonus (some 26) ∧
    calculate_water_goal 70 45 (some 26) = 3350 :=
  ⟨by norm_num, by norm_num,
   C5_water_goal_formula 70 45 (some 26) (by norm_num) (by norm_num),
   by norm_num [calculate_water_goal, show Int.fdiv 45 30 = 1 from by decide]⟩

/-- Counterexample to C5 as stated: at weight 70.55 (= 1411/20) the source
returns the untruncated 2116.5 (= 4233/2), not the integer
`int(70.55*30) + (0//30)*500 = 2116` the claim asserts, so the result is
not integer-valued. -/
theorem C5_no_truncation_counterexample :
    calculate_water_goal (1411 / 20) 0 none = 4233 / 2 ∧
    calculate_water_goal (1411 / 20) 0 none ≠
      ((pyIntQ ((1411 : ℚ) / 20 * 30) + Int.fdiv 0 30 * 500 : ℤ) : ℚ) := by
  have h : calculate_water_goal (1411 / 20) 0 none = 4233 / 2 := by
    norm_num [calculate_water_goal, show Int.fdiv 0 30 = 0 from by decide]
  refine ⟨h, ?_⟩
  rw [h, show pyIntQ ((1411 : ℚ) / 20 * 30) = 2116 from by norm_num [pyIntQ],
      show Int.fdiv 0 30 = 0 from by decide]
  norm_num

/-- C6: the calorie goal is the truncated Mifflin-St Jeor BMR plus a linear
(not floor-divided) activity bonus of 250 per 30 minutes, and the spec's
worked example evaluates to 2148. -/
theorem C6_calorie_goal_formula (w h : ℚ) (a act : ℤ) (g : Option String)
    (hw : 0 < w) (hh : 0 < h) (ha : 0 < a) (hact : 0 < act)
    (hg : g = some "М" ∨ g = some "Ж") :
    calculate_calorie_goal w h a g act =
      pyIntQ (10 * w + 25 / 4 * h - 5 * (a : ℚ)
        + (if g = some "М" then 5 else -161) + ((act : ℚ) / 30) * 250) ∧
    calculate_calorie_goal 70 175 30 (some "М") 60 = 2148 := by
  constructor
  · rcases hg with hg | hg <;> subst hg <;> simp [calculate_calorie_goal] <;>
      congr 1 <;> ring
  · norm_num [calculate_calorie_goal, pyIntQ]

/-- Witness for C6 at the spec's worked example (70 kg, 175 cm, 30 y, М,
60 min). -/
theorem C6_calorie_goal_formula_witness :
    calculate_calorie_goal 70 175 30 (some "М") 60 =
      pyIntQ (10 * 70 + 25 / 4 * 175 - 5 * ((30 : ℤ) : ℚ)
        + (if (some "М" : Option String) = some "М" then 5 else -161)
        + (((60 : ℤ) : ℚ) / 30) * 250) ∧
    calculate_calorie_goal 70 175 30 (some "М") 60 = 2148 :=
  C6_calorie_goal_formula 70 175 30 60 (some "М") (by norm_num) (by norm_num)
    (by norm_num) (by norm_num) (Or.inl rfl)

/-- C8: with a burn-rate lookup result the burn estimate is
`int((rate/60)·(w/70)·minutes)`; on any lookup failure it is the fallback
`int(minutes·5·(w/70))` — always an integer result, never an error. -/
theorem C8_estimate_burn (m : ℤ) (w rate : ℚ) (hm : 0 < m) (hw : 0 < w) :
    get_calories_burned (some rate) m w = pyIntQ (rate / 60 * (w / 70) * (m : ℚ)) ∧
    get_calories_burned none m w = pyIntQ ((m : ℚ) * 5 * (w / 70)) :=
  ⟨rfl, rfl⟩

/-- Witness for C8 at 30 minutes, 70 kg, rate 420 kcal/h: lookup path gives
int(420/60·1·30) = 210, fallback gives int(30·5·1) = 150. -/
theorem C8_estimate_burn_witness :
    get_calories_burned (some 420) 30 70 = pyIntQ (420 / 60 * (70 / 70) * ((30 : ℤ) : ℚ)) ∧
    get_calories_burned none 30 70 = pyIntQ (((30 : ℤ) : ℚ) * 5 * (70 / 70)) ∧
    get_calories_burned (some 420) 30 70 = 210 ∧
    get_calories_burned none 30 70 = 150 :=
  ⟨(C8_estimate_burn 30 70 420 (by norm_num) (by norm_num)).1,
   (C8_estimate_burn 30 70 420 (by norm_num) (by norm_num)).2,
   by norm_num [get_calories_burned, pyIntQ],
   by norm_num [get_calories_burned, pyIntQ]⟩

/-- C3: with a (truthy) water goal set, a non-positive parsed amount leaves
the entry untouched and yields the invalid-amount reply; a positive amount
adds exactly `amount` to the accumulator (so it never decreases), appends
the (timestamp, new cumulative total) snapshot, and reports
remaining = goal − newTotal. -/
theorem C3_log_water (st : UserState) (goal : ℚ) (a : String) (amount : ℤ)
    (now : ℕ) (hg : st.water_goal = some goal) (hg0 : goal ≠ 0)
    (hp : pyIntStr a = some amount) :
    (amount ≤ 0 → log_water st [a] now = (st, WaterOutcome.invalidAmount)) ∧
    (0 < amount →
      log_water st [a] now =
        ({ st with logged_water := st.logged_water + amount,
                   water_history := st.water_history ++ [(now, st.logged_water + amount)] },
         WaterOutcome.logged amount (st.logged_water + amount)
           (goal - ((st.logged_water + amount : ℤ) : ℚ))
           (decide (goal - ((st.logged_water + amount : ℤ) : ℚ) ≤ 0)))) ∧
    st.logged_water ≤ (log_water st [a] now).1.logged_water := by
  refine ⟨fun hle => ?_, fun hlt => ?_, ?_⟩
  · simp only [log_water, hg, hp]
    rw [if_neg hg0, if_pos hle]
  · simp only [log_water, hg, hp]
    rw [if_neg hg0, if_neg (not_le.mpr hlt)]
  · by_cases hle : amount ≤ 0
    · simp only [log_water, hg, hp]
      rw [if_neg hg0, if_pos hle]
    · simp only [log_water, hg, hp]
      rw [if_neg hg0, if_neg hle]
      simp only []
      omega

/-- Concrete user entry as left by a completed profile setup
(70 kg, 175 cm, 30 y, М, 60 min, no temperature), used to instantiate the
hypothesis-bearing theorems. -/
def goal_state : UserState :=
  { init_user_data with
    weight := some 70, height := some 175, age := some 30,
    gender := some "М", activity := some 60, city := some "Москва",
    water_goal := some 3100, calorie_goal := some 2148 }

/-- Witness for C3: logging 250 ml on `goal_state` adds 250 and appends the
cumulative snapshot. -/
theorem C3_log_water_witness :
    log_water goal_state ["250"] 3 =
      ({ goal_state with
          logged_water := goal_state.logged_water + 250,
          water_history := goal_state.water_history ++ [(3, goal_state.logged_water + 250)] },
       WaterOutcome.logged 250 (goal_state.logged_water + 250)
         (3100 - ((goal_state.logged_water + 250 : ℤ) : ℚ))
         (decide (3100 - ((goal_state.logged_water + 250 : ℤ) : ℚ) ≤ 0))) :=
  (C3_log_water goal_state 3100 "250" 250 3 rfl (by norm_num) (by decide)).2.1
    (by norm_num)

/-- C4: replying with a positive gram amount while no food lookup is pending
fails (the source dies on `None['calories']`, modelled as
`FoodOutcome.noPendingLookup`) and the user entry is completely unchanged —
the failure happens before any write. -/
theorem C4_no_pending_lookup (st : UserState) (text : String) (amount : ℚ)
    (now : ℕ) (hp : st.temp_food_data = none) (ht : pyFloatStr text = some amount)
    (h0 : 0 < amount) :
    food_amount_handler st text now = (st, ConvState.FOOD_AMOUNT, FoodOutcome.noPendingLookup) := by
  simp only [food_amount_handler, ht, hp]
  rw [if_neg (not_le.mpr h0)]

/-- Evaluation of the float parser on the literal "150". -/
theorem pyFloatStr_150 : pyFloatStr "150" = some 150 := by
  have h : pyFloatStr "150" = some ((natOfDigits ['1', '5', '0'] : ℕ) : ℚ) := rfl
  rw [h, show natOfDigits ['1', '5', '0'] = 150 from by decide]
  norm_num

/-- Witness for C4: a fresh entry has no pending lookup, and replying "150"
leaves it unchanged with the no-pending failure. -/
theorem C4_no_pending_lookup_witness :
    food_amount_handler init_user_data "150" 2 =
      (init_user_data, ConvState.FOOD_AMOUNT, FoodOutcome.noPendingLookup) :=
  C4_no_pending_lookup init_user_data "150" 150 2 rfl pyFloatStr_150 (by norm_num)

/-- C7: a successful `/log_workout` appends to the calorie history the
negated new cumulative burned total, appends to the water history the
reminder-debit −(duration // 30)·200, and leaves `logged_water` itself
untouched. -/
theorem C7_workout_history_effects (st : UserState) (cg : ℤ) (ty durText : String)
    (d : ℤ) (lookup : Option ℚ) (w : ℚ) (now : ℕ)
    (hcg : st.calorie_goal = some cg) (hcg0 : cg ≠ 0)
    (hd : pyIntStr durText = some d) (hd0 : 0 < d) (hw : st.weight = some w) :
    (log_workout_start st [ty, durText] lookup now).1.calorie_history
      = st.calorie_history
        ++ [(now, -(st.burned_calories + ((get_calories_burned lookup d w : ℤ) : ℚ)))] ∧
    (log_workout_start st [ty, durText] lookup now).1.water_history
      = st.water_history ++ [(now, Int.fdiv d 30 * (-200))] ∧
    (log_workout_start st [ty, durText] lookup now).1.logged_water = st.logged_water := by
  have hlen : ¬ ([ty, durText] : List String).length < 2 := by simp
  have hlast : ([ty, durText] : List String).getLast? = some durText := rfl
  refine ⟨?_, ?_, ?_⟩ <;>
    · simp only [log_workout_start, hcg, hlast, hd, hw]
      rw [if_neg hcg0, if_neg hlen, if_neg (not_le.mpr hd0)]

/-- Witness for C7: a 30-minute run on `goal_state` with a failed burn-rate
lookup. -/
theorem C7_workout_history_effects_witness :
    (log_workout_start goal_state ["бег", "30"] none 4).1.calorie_history
      = goal_state.calorie_history
        ++ [(4, -(goal_state.burned_calories + ((get_calories_burned none 30 70 : ℤ) : ℚ)))] ∧
    (log_workout_start goal_state ["бег", "30"] none 4).1.water_history
      = goal_state.water_history ++ [(4, Int.fdiv 30 30 * (-200))] ∧
    (log_workout_start goal_state ["бег", "30"] none 4).1.logged_water
      = goal_state.logged_water :=
  C7_workout_history_effects goal_state 2148 "бег" "30" 30 none 70 4 rfl
    (by norm_num) (by decide) (by norm_num) rfl

/-- Evaluation of the float parser on the literal "-5". -/
theorem pyFloatStr_neg5 : pyFloatStr "-5" = some (-5) := by
  have h : pyFloatStr "-5" = some (-((natOfDigits ['5'] : ℕ) : ℚ)) := rfl
  rw [h, show natOfDigits ['5'] = 5 from by decide]
  norm_num

/-- C2 (amended): every wizard text state validates its input only for
parseability — any float (with sign) for weight/height, any integer for
age/activity, membership in {М, Ж} for gender — re-prompting and staying in
the same state with the entry untouched on a parse failure, and storing the
value and advancing on success, even for non-positive numbers. -/
theorem C2_wizard_validation (st : UserState) (text : String) :
    (pyFloatStr text = none →
      weight_handler st text = ⟨st, ConvState.WEIGHT, invalid_number_reply⟩ ∧
      height_handler st text = ⟨st, ConvState.HEIGHT, invalid_number_reply⟩) ∧
    (∀ x : ℚ, pyFloatStr text = some x →
      weight_handler st text = ⟨{ st with weight := some x }, ConvState.HEIGHT, height_prompt⟩ ∧
      height_handler st text = ⟨{ st with height := some x }, ConvState.AGE, age_prompt⟩) ∧
    (pyIntStr text = none →
      age_handler st text = ⟨st, ConvState.AGE, invalid_number_reply⟩ ∧
      activity_handler st text = ⟨st, ConvState.ACTIVITY, invalid_number_reply⟩) ∧
    (∀ n : ℤ, pyIntStr text = some n →
      age_handler st text = ⟨{ st with age := some n }, ConvState.GENDER, gender_prompt⟩ ∧
      activity_handler st text = ⟨{ st with activity := some n }, ConvState.CITY, city_prompt⟩) ∧
    (¬(text = "М" ∨ text = "Ж") →
      gender_handler st text = ⟨st, ConvState.GENDER, gender_reprompt⟩) ∧
    ((text = "М" ∨ text = "Ж") →
      gender_handler st text = ⟨{ st with gender := some text }, ConvState.ACTIVITY, activity_prompt⟩) := by
  refine ⟨fun h => ⟨?_, ?_⟩, fun x hx => ⟨?_, ?_⟩, fun h => ⟨?_, ?_⟩,
          fun n hn => ⟨?_, ?_⟩, fun h => ?_, fun h => ?_⟩
  · simp only [weight_handler, h]
  · simp only [height_handler, h]
  · simp only [weight_handler, hx]
  · simp only [height_handler, hx]
  · simp only [age_handler, h]
  · simp only [activity_handler, h]
  · simp only [age_handler, hn]
  · simp only [activity_handler, hn]
  · simp only [gender_handler, if_pos h]
  · simp only [gender_handler, if_neg (not_not_intro h)]

/-- Counterexample to C2 as stated: the weight step accepts the non-positive
input "-5" — it stores weight −5 and advances to HEIGHT instead of
re-prompting. -/
theorem C2_accepts_nonpositive_counterexample :
    weight_handler init_user_data "-5"
      = ⟨{ init_user_data with weight := some (-5) }, ConvState.HEIGHT, height_prompt⟩ ∧
    (-5 : ℚ) ≤ 0 ∧ ConvState.HEIGHT ≠ ConvState.WEIGHT := by
  refine ⟨?_, by norm_num, by decide⟩
  simp only [weight_handler, pyFloatStr_neg5]

/-- Witness for C2: a non-numeric text re-prompts in WEIGHT and AGE with the
entry unchanged, and a valid gender advances storing it. -/
theorem C2_wizard_validation_witness :
    weight_handler init_user_data "abc" = ⟨init_user_data, ConvState.WEIGHT, invalid_number_reply⟩ ∧
    age_handler init_user_data "abc" = ⟨init_user_data, ConvState.AGE, invalid_number_reply⟩ ∧
    gender_handler init_user_data "Ж"
      = ⟨{ init_user_data with gender := some "Ж" }, ConvState.ACTIVITY, activity_prompt⟩ :=
  ⟨((C2_wizard_validation init_user_data "abc").1 (by decide)).1,
   ((C2_wizard_validation init_user_data "abc").2.2.1 (by decide)).1,
   (C2_wizard_validation init_user_data "Ж").2.2.2.2.2 (Or.inr rfl)⟩

/-- C1 (amended): completing the CITY step overwrites city and both goals
and zeroes the three counters, and a second application of the same profile
reproduces exactly the same state (identical goals, counters still zero) —
but the water history, calorie history and a pending food lookup are left
unchanged, not cleared. -/
theorem C1_apply_profile_overwrites (st : UserState) (city : String) (t : Option ℚ)
    (w h : ℚ) (a act : ℤ)
    (hw : st.weight = some w) (hh : st.height = some h) (ha : st.age = some a)
    (hact : st.activity = some act) :
    city_handler st city t =
      ({ st with
          city := some city,
          water_goal := some (calculate_water_goal w act t),
          calorie_goal := some (calculate_calorie_goal w h a st.gender act),
          logged_water := 0, logged_calories := 0, burned_calories := 0 },
       some ConvState.END) ∧
    (city_handler st city t).1.water_history = st.water_history ∧
    (city_handler st city t).1.calorie_history = st.calorie_history ∧
    (city_handler st city t).1.temp_food_data = st.temp_food_data ∧
    city_handler (city_handler st city t).1 city t
      = ((city_handler st city t).1, some ConvState.END) := by
  have h1 : city_handler st city t =
      ({ st with
          city := some city,
          water_goal := some (calculate_water_goal w act t),
          calorie_goal := some (calculate_calorie_goal w h a st.gender act),
          logged_water := 0, logged_calories := 0, burned_calories := 0 },
       some ConvState.END) := by
    simp only [city_handler, hw, hh, ha, hact]
  refine ⟨h1, ?_, ?_, ?_, ?_⟩
  · rw [h1]
  · rw [h1]
  · rw [h1]
  · rw [h1]
    simp only [city_handler, hw, hh, ha, hact]

/-- Witness for C1 on `goal_state` (70 kg, 175 cm, 30 y, М, 60 min). -/
theorem C1_apply_profile_overwrites_witness :
    city_handler goal_state "Москва" none =
      ({ goal_state with
          city := some "Москва",
          water_goal := some (calculate_water_goal 70 60 none),
          calorie_goal := some (calculate_calorie_goal 70 175 30 goal_state.gender 60),
          logged_water := 0, logged_calories := 0, burned_calories := 0 },
       some ConvState.END) ∧
    (city_handler goal_state "Москва" none).1.water_history = goal_state.water_history ∧
    (city_handler goal_state "Москва" none).1.calorie_history = goal_state.calorie_history ∧
    (city_handler goal_state "Москва" none).1.temp_food_data = goal_state.temp_food_data ∧
    city_handler (city_handler goal_state "Москва" none).1 "Москва" none
      = ((city_handler goal_state "Москва" none).1, some ConvState.END) :=
  C1_apply_profile_overwrites goal_state "Москва" none 70 175 30 60 rfl rfl rfl rfl

/-- Entry after `goal_state` begins a food lookup (a pending lookup is now
stored). -/
def c1_pending : UserState :=
  (log_food_start goal_state ["банан"] (some ⟨"Банан", 89, 100⟩)).1

/-- Entry after additionally logging 200 ml of water (the water history now
has one snapshot). -/
def c1_watered : UserState := (log_water c1_pending ["200"] 1).1

/-- Entry after re-running the profile wizard to the same CITY completion on
top of that ledger. -/
def c1_second : UserState := (city_handler c1_watered "Москва" none).1

/-- Counterexample to C1 as stated: after a completed profile setup the
counters are zero, but the water history still holds the earlier snapshot
and the pending food lookup is still there — the ledger is not fully
reset. -/
theorem C1_history_survives_counterexample :
    c1_second.logged_water = 0 ∧ c1_second.logged_calories = 0 ∧
    c1_second.burned_calories = 0 ∧
    c1_second.water_history = [(1, 200)] ∧
    c1_second.water_history ≠ [] ∧
    c1_second.temp_food_data = some ⟨"Банан", 89, 100⟩ := by
  refine ⟨rfl, rfl, rfl, by decide, by decide, rfl⟩

/-- The operation `log_water` never touches the stored goals. -/
theorem log_water_preserves_goals (st : UserState) (args : List String) (now : ℕ) :
    (log_water st args now).1.water_goal = st.water_goal ∧
    (log_water st args now).1.calorie_goal = st.calorie_goal := by
  unfold log_water
  constructor
  all_goals repeat' split
  all_goals rfl

/-- The operation `log_food_start` never touches the stored goals. -/
theorem log_food_start_preserves_goals (st : UserState) (args : List String)
    (r : Option FoodData) :
    (log_food_start st args r).1.water_goal = st.water_goal ∧
    (log_food_start st args r).1.calorie_goal = st.calorie_goal := by
  unfold log_food_start
  constructor
  all_goals repeat' split
  all_goals rfl

/-- The operation `food_amount_handler` never touches the stored goals. -/
theorem food_amount_handler_preserves_goals (st : UserState) (text : String)
    (now : ℕ) :
    (food_amount_handler st text now).1.water_goal = st.water_goal ∧
    (food_amount_handler st text now).1.calorie_goal = st.calorie_goal := by
  unfold food_amount_handler
  constructor
  all_goals repeat' split
  all_goals rfl

/-- The operation `log_workout_start` never touches the stored goals. -/
theorem log_workout_start_preserves_goals (st : UserState) (args : List String)
    (lookup : Option ℚ) (now : ℕ) :
    (log_workout_start st args lookup now).1.water_goal = st.water_goal ∧
    (log_workout_start st args lookup now).1.calorie_goal = st.calorie_goal := by
  unfold log_workout_start
  constructor
  all_goals repeat' split
  all_goals rfl

/-- No logging event touches the stored goals. -/
theorem applyEvent_preserves_goals (st : UserState) (e : Event) :
    (applyEvent st e).water_goal = st.water_goal ∧
    (applyEvent st e).calorie_goal = st.calorie_goal := by
  cases e with
  | water args now => exact log_water_preserves_goals st args now
  | beginFood args r => exact log_food_start_preserves_goals st args r
  | foodAmount text now => exact food_amount_handler_preserves_goals st text now
  | workout args lookup now => exact log_workout_start_preserves_goals st args lookup now

/-- No sequence of logging events touches the stored goals. -/
theorem applyEvents_preserves_goals (evs : List Event) (st : UserState) :
    (applyEvents st evs).water_goal = st.water_goal ∧
    (applyEvents st evs).calorie_goal = st.calorie_goal := by
  induction evs generalizing st with
  | nil => exact ⟨rfl, rfl⟩
  | cons e evs ih =>
    have h1 := applyEvent_preserves_goals st e
    have h2 := ih (applyEvent st e)
    exact ⟨h2.1.trans h1.1, h2.2.trans h1.2⟩

/-- C9: after any interleaving of water / food / workout events on an entry
with both goals set, `/check_progress` reports
waterRemaining = max(0, waterGoal − loggedWater),
calorieBalance = loggedCalories − burnedCalories, and
calorieRemaining = calorieGoal − calorieBalance. -/
theorem C9_progress_snapshot (st : UserState) (evs : List Event) (wg : ℚ) (cg : ℤ)
    (hw : st.water_goal = some wg) (hw0 : wg ≠ 0) (hc : st.calorie_goal = some cg) :
    check_progress (applyEvents st evs) =
      ProgressOutcome.shown
        { logged_water := (applyEvents st evs).logged_water,
          water_goal := wg,
          water_remaining_shown := max 0 (wg - ((applyEvents st evs).logged_water : ℚ)),
          logged_calories := (applyEvents st evs).logged_calories,
          burned_calories := (applyEvents st evs).burned_calories,
          calorie_balance :=
            (applyEvents st evs).logged_calories - (applyEvents st evs).burned_calories,
          calorie_remaining :=
            (cg : ℚ) - ((applyEvents st evs).logged_calories
              - (applyEvents st evs).burned_calories) } := by
  have hg := applyEvents_preserves_goals evs st
  have hwg : (applyEvents st evs).water_goal = some wg := hg.1.trans hw
  have hcg : (applyEvents st evs).calorie_goal = some cg := hg.2.trans hc
  simp only [check_progress, hwg, hcg]
  rw [if_neg hw0]

/-- Concrete interleaving used to witness C9: water, then workout, then a
completed food lookup. -/
def c9_events : List Event :=
  [Event.water ["300"] 1,
   Event.workout ["бег", "30"] none 2,
   Event.beginFood ["банан"] (some ⟨"Банан", 89, 100⟩),
   Event.foodAmount "150" 3]

/-- Witness for C9 on `goal_state` and the `c9_events` interleaving. -/
theorem C9_progress_snapshot_witness :
    check_progress (applyEvents goal_state c9_events) =
      ProgressOutcome.shown
        { logged_water := (applyEvents goal_state c9_events).logged_water,
          water_goal := 3100,
          water_remaining_shown :=
            max 0 (3100 - ((applyEvents goal_state c9_events).logged_water : ℚ)),
          logged_calories := (applyEvents goal_state c9_events).logged_calories,
          burned_calories := (applyEvents goal_state c9_events).burned_calories,
          calorie_balance :=
            (applyEvents goal_state c9_events).logged_calories
              - (applyEvents goal_state c9_events).burned_calories,
          calorie_remaining :=
            ((2148 : ℤ) : ℚ) - ((applyEvents goal_state c9_events).logged_calories
              - (applyEvents goal_state c9_events).burned_calories) } :=
  C9_progress_snapshot goal_state c9_events 3100 2148 rfl (by norm_num) rfl

/-- Entry produced by running the whole wizard with the inputs
"0" / "170" / "30" / "Ж" / "20" and city "Сочи" with no temperature: the
weight step accepts "0", and the computed water goal is 0·30 + (20//30)·500
= 0. -/
def c10_state : UserState :=
  (city_handler
    (activity_handler
      (gender_handler
        (age_handler
          (height_handler
            (weight_handler init_user_data "0").st "170").st "30").st "Ж").st "20").st
    "Сочи" none).1

/-- C10: the completeness guards test truthiness, not presence — after the
wizard above the water goal is the present-but-falsy `some 0`, and
`/log_water`, `/check_progress` and `/show_graphs` all answer exactly as if
no profile had been set. -/
theorem C10_zero_goal_treated_as_unset :
    c10_state.water_goal = some 0 ∧
    log_water c10_state ["250"] 5 = (c10_state, WaterOutcome.profileIncomplete) ∧
    check_progress c10_state = ProgressOutcome.profileIncomplete ∧
    show_graphs c10_state = GraphsOutcome.profileIncomplete := by
  have h0 : ((natOfDigits ['0'] : ℕ) : ℚ) = 0 := by
    rw [show natOfDigits ['0'] = 0 from by decide]
    norm_num
  have h20 : ((natOfDigits ['2', '0'] : ℕ) : ℤ) = 20 := by decide
  have hwv : calculate_water_goal 0 20 none = 0 := by
    norm_num [calculate_water_goal, show Int.fdiv 20 30 = 0 from by decide]
  have hwg : c10_state.water_goal = some 0 := by
    have h : c10_state.water_goal
        = some (calculate_water_goal ((natOfDigits ['0'] : ℕ) : ℚ)
            ((natOfDigits ['2', '0'] : ℕ) : ℤ) none) := rfl
    rw [h, h0, h20, hwv]
  refine ⟨hwg, ?_, ?_, ?_⟩
  · simp only [log_water, hwg]
    rw [if_pos trivial]
  · simp only [check_progress, hwg]
    rw [if_pos trivial]
  · simp only [show_graphs, hwg]
    rw [if_pos trivial]
